import Mathlib

/-!
Verification of the credit-collection NPV engine (`src/finance.py`).

Shallow embedding of the three evaluation functions and the recommender of
`src/finance.py` over exact rational arithmetic (`ℚ` in place of Python
floats), together with theorems settling the specification claims.

Conventions of the embedding:
* Python floats become `ℚ`; every arithmetic operation of the source is
  translated literally.
* A pandas `DataFrame` of schedule rows becomes a `List` of row structures.
* Python's `range(1, plazo_meses + 1)` loop becomes a map over
  `List.range plazo_meses`, with the loop variable `mes = k + 1`.
* The accumulation `van += valor_actual_cuota` becomes a `List.foldl`
  over the rows, in the same order as the Python loop.
* Division by zero: Python raises `ZeroDivisionError`; Lean's `ℚ` yields `0`.
  Theorems whose inputs would make the source divide by zero carry the
  corresponding nonzero-ness hypothesis.
-/

/-- A row of the cash-flow schedule of options 1 and 2:
`{"Mes": mes, "Flujo de Caja (AR$)": flujo, "Valor Actual (AR$)": valorActual}`. -/
structure Row where
  mes : ℕ
  flujo : ℚ
  valorActual : ℚ
deriving Repr, DecidableEq

/-- A row of option 3's schedule, which additionally carries the projected
exchange rate `{"TC Proyectado": tcProyectado}`. -/
structure RowFx where
  mes : ℕ
  tcProyectado : ℚ
  flujo : ℚ
  valorActual : ℚ
deriving Repr, DecidableEq

/-- Embedding of `calcular_opcion_1_contado(monto_capital, descuento_pct)`:
`pago_contado = monto_capital * (1 - descuento_pct / 100)`, one row at month 0,
NPV equal to the payment itself. Returns `(van, df)` like the source. -/
def calcular_opcion_1_contado (monto_capital descuento_pct : ℚ) : ℚ × List Row :=
  let pago_contado := monto_capital * (1 - descuento_pct / 100)
  let van := pago_contado
  (van, [{ mes := 0, flujo := pago_contado, valorActual := van }])

/-- The row built for month `mes` by the loop body of
`calcular_opcion_2_inflacion`: `cuota_ajustada = cuota_capital_base *
(1 + inflacion_mensual) ** mes`, discounted by `(1 + tasa_descuento_mensual) ** mes`. -/
def fila_opcion_2 (cuota_capital_base inflacion_mensual tasa_descuento_mensual : ℚ)
    (mes : ℕ) : Row :=
  let factor_ajuste := (1 + inflacion_mensual) ^ mes
  let cuota_ajustada := cuota_capital_base * factor_ajuste
  let valor_actual_cuota := cuota_ajustada / ((1 + tasa_descuento_mensual) ^ mes)
  { mes := mes, flujo := cuota_ajustada, valorActual := valor_actual_cuota }

/-- Embedding of
`calcular_opcion_2_inflacion(monto_capital, plazo_meses, inflacion_mensual_pct, tasa_descuento_mensual)`:
`cuota_capital_base = monto_capital / plazo_meses`, then for
`mes in range(1, plazo_meses + 1)` the row `fila_opcion_2 ... mes`, with
`van` accumulated over the rows in loop order. -/
def calcular_opcion_2_inflacion (monto_capital : ℚ) (plazo_meses : ℕ)
    (inflacion_mensual_pct tasa_descuento_mensual : ℚ) : ℚ × List Row :=
  let cuota_capital_base := monto_capital / (plazo_meses : ℚ)
  let inflacion_mensual := inflacion_mensual_pct / 100
  let flujos := (List.range plazo_meses).map fun k =>
    fila_opcion_2 cuota_capital_base inflacion_mensual tasa_descuento_mensual (k + 1)
  let van := flujos.foldl (fun acc r => acc + r.valorActual) 0
  (van, flujos)

/-- The row built for month `mes` by the loop body of `calcular_opcion_3_dolar`:
`tc_proyectado = tc_inicial * (1 + devaluacion_mensual) ** mes`,
`cuota_en_ars = cuota_usd * tc_proyectado`, discounted by
`(1 + tasa_descuento_mensual) ** mes`. -/
def fila_opcion_3 (cuota_usd tc_inicial devaluacion_mensual tasa_descuento_mensual : ℚ)
    (mes : ℕ) : RowFx :=
  let tc_proyectado := tc_inicial * ((1 + devaluacion_mensual) ^ mes)
  let cuota_en_ars := cuota_usd * tc_proyectado
  let valor_actual_cuota := cuota_en_ars / ((1 + tasa_descuento_mensual) ^ mes)
  { mes := mes, tcProyectado := tc_proyectado, flujo := cuota_en_ars,
    valorActual := valor_actual_cuota }

/-- Embedding of
`calcular_opcion_3_dolar(monto_capital, plazo_meses, tc_inicial, devaluacion_mensual_pct, tasa_descuento_mensual)`:
`capital_en_usd = monto_capital / tc_inicial`, `cuota_usd = capital_en_usd / plazo_meses`,
then for `mes in range(1, plazo_meses + 1)` the row `fila_opcion_3 ... mes`,
with `van` accumulated over the rows in loop order. -/
def calcular_opcion_3_dolar (monto_capital : ℚ) (plazo_meses : ℕ)
    (tc_inicial devaluacion_mensual_pct tasa_descuento_mensual : ℚ) : ℚ × List RowFx :=
  let capital_en_usd := monto_capital / tc_inicial
  let cuota_usd := capital_en_usd / (plazo_meses : ℚ)
  let devaluacion_mensual := devaluacion_mensual_pct / 100
  let flujos := (List.range plazo_meses).map fun k =>
    fila_opcion_3 cuota_usd tc_inicial devaluacion_mensual tasa_descuento_mensual (k + 1)
  let van := flujos.foldl (fun acc r => acc + r.valorActual) 0
  (van, flujos)

/-- Key of option 1 in the `resultados` dict of the source
(`"Opción 1: Pago Contado"`). -/
def opcionKey1 : String := "Opción 1: Pago Contado"

/-- Key of option 2 in the `resultados` dict of the source
(`"Opción 2: Cuotas + Inflación"`). -/
def opcionKey2 : String := "Opción 2: Cuotas + Inflación"

/-- Key of option 3 in the `resultados` dict of the source
(`"Opción 3: Cuotas Dólar"`, quotes around Dólar dropped). -/
def opcionKey3 : String := "Opción 3: Cuotas Dólar"

/-- Embedding of `mejor_opcion = max(resultados, key=resultados.get)`.
The Python dict preserves insertion order, so it is embedded as an association
list; Python's `max` scans left to right and replaces the current best only on
a strictly greater key value, so ties keep the earliest entry.  `max` over an
empty iterable raises `ValueError`; that is embedded as `none`. -/
def mejor_opcion (resultados : List (String × ℚ)) : Option String :=
  match resultados with
  | [] => none
  | kv :: rest =>
    some (rest.foldl (fun best kv2 => if kv2.2 > best.2 then kv2 else best) kv).1

/-- Reference formula of the annuity cross-check claim (stated by the spec,
not by the source): the present value of `N` equal installments of `P / N`
discounted at the periodic rate `r` — `P` itself when `r = 0`, and
`(P / N) * (1 - (1 + r)^(-N)) / r` otherwise. -/
def annuityPV (P : ℚ) (N : ℕ) (r : ℚ) : ℚ :=
  if r = 0 then P else P / (N : ℚ) * (1 - ((1 + r) ^ N)⁻¹) / r

/-! Helper lemmas characterising the schedules and accumulated NPVs. -/

/-- Folding the accumulation `van += valor_actual_cuota` over a row list adds
the sum of the `valorActual` column to the accumulator. -/
lemma foldl_add_valorActual (l : List Row) (c : ℚ) :
    l.foldl (fun acc r => acc + r.valorActual) c = c + (l.map Row.valorActual).sum := by
  induction l generalizing c with
  | nil => simp
  | cons h t ih => simp [ih, add_assoc]

/-- Variant of `foldl_add_valorActual` for option 3's rows. -/
lemma foldl_add_valorActualFx (l : List RowFx) (c : ℚ) :
    l.foldl (fun acc r => acc + r.valorActual) c = c + (l.map RowFx.valorActual).sum := by
  induction l generalizing c with
  | nil => simp
  | cons h t ih => simp [ih, add_assoc]

/-- A list sum over `List.range` is the corresponding `Finset.range` sum. -/
lemma sum_list_range_map (f : ℕ → ℚ) (n : ℕ) :
    ((List.range n).map f).sum = ∑ k in Finset.range n, f k := by
  induction n with
  | zero => simp
  | succ n ih => rw [List.sum_range_succ, Finset.sum_range_succ, ih]

/-- Row `k` (0-based; month `k + 1`) of option 2's schedule, written out. -/
lemma opcion2_getElem (P : ℚ) (N : ℕ) (i r : ℚ) (k : ℕ) (hk : k < N) :
    ((calcular_opcion_2_inflacion P N i r).2)[k]? =
      some { mes := k + 1,
             flujo := P / (N : ℚ) * (1 + i / 100) ^ (k + 1),
             valorActual := P / (N : ℚ) * (1 + i / 100) ^ (k + 1) / (1 + r) ^ (k + 1) } := by
  simp [calcular_opcion_2_inflacion, List.getElem?_map, List.getElem?_range hk, fila_opcion_2]

/-- Option 2's accumulated `van` as a closed summation. -/
lemma opcion2_van (P : ℚ) (N : ℕ) (i r : ℚ) :
    (calcular_opcion_2_inflacion P N i r).1 =
      ∑ k in Finset.range N, P / (N : ℚ) * (1 + i / 100) ^ (k + 1) / (1 + r) ^ (k + 1) := by
  show ((List.range N).map _).foldl _ 0 = _
  rw [foldl_add_valorActual, zero_add, List.map_map, ← sum_list_range_map]
  rfl

/-- Option 2's schedule has one row per month of the loop. -/
lemma opcion2_length (P : ℚ) (N : ℕ) (i r : ℚ) :
    (calcular_opcion_2_inflacion P N i r).2.length = N := by
  simp [calcular_opcion_2_inflacion]

/-- Row `k` (0-based; month `k + 1`) of option 3's schedule, written out. -/
lemma opcion3_getElem (P : ℚ) (N : ℕ) (tc d r : ℚ) (k : ℕ) (hk : k < N) :
    ((calcular_opcion_3_dolar P N tc d r).2)[k]? =
      some { mes := k + 1,
             tcProyectado := tc * (1 + d / 100) ^ (k + 1),
             flujo := P / tc / (N : ℚ) * (tc * (1 + d / 100) ^ (k + 1)),
             valorActual :=
               P / tc / (N : ℚ) * (tc * (1 + d / 100) ^ (k + 1)) / (1 + r) ^ (k + 1) } := by
  simp [calcular_opcion_3_dolar, List.getElem?_map, List.getElem?_range hk, fila_opcion_3]

/-- Option 3's accumulated `van` as a closed summation. -/
lemma opcion3_van (P : ℚ) (N : ℕ) (tc d r : ℚ) :
    (calcular_opcion_3_dolar P N tc d r).1 =
      ∑ k in Finset.range N,
        P / tc / (N : ℚ) * (tc * (1 + d / 100) ^ (k + 1)) / (1 + r) ^ (k + 1) := by
  show ((List.range N).map _).foldl _ 0 = _
  rw [foldl_add_valorActualFx, zero_add, List.map_map, ← sum_list_range_map]
  rfl

/-- Option 3's schedule has one row per month of the loop. -/
lemma opcion3_length (P : ℚ) (N : ℕ) (tc d r : ℚ) :
    (calcular_opcion_3_dolar P N tc d r).2.length = N := by
  simp [calcular_opcion_3_dolar]

/-- Converting the principal to foreign currency and multiplying back by a
projection of the same initial rate cancels the rate (exact arithmetic). -/
lemma fx_cancel (P tc z : ℚ) (N : ℕ) (htc : tc ≠ 0) :
    P / tc / (N : ℚ) * (tc * z) = P / (N : ℚ) * z := by
  field_simp
  rw [show P * (tc * z) = tc * (P * z) by ring, mul_div_mul_left _ _ htc]

/-! Claim theorems. -/

/-- C1: `mejor_opcion`, applied to the three-option result mapping in its
declaration order, returns the key whose `van` is numerically largest; on
exact ties it returns the first such key (option 1, then 2, then 3). -/
theorem mejor_opcion_returns_first_max (v1 v2 v3 : ℚ) :
    mejor_opcion [(opcionKey1, v1), (opcionKey2, v2), (opcionKey3, v3)] =
      some (if v2 ≤ v1 ∧ v3 ≤ v1 then opcionKey1
            else if v3 ≤ v2 then opcionKey2 else opcionKey3) := by
  simp only [mejor_opcion, List.foldl]
  rcases le_or_lt v2 v1 with h12 | h12
  · rw [if_neg (not_lt.2 h12)]
    rcases le_or_lt v3 v1 with h13 | h13
    · rw [if_neg (not_lt.2 h13), if_pos ⟨h12, h13⟩]
    · rw [if_pos h13, if_neg (by push_neg; intro _; exact h13),
        if_neg (by intro h; exact absurd (le_trans h h12) (not_le.2 h13))]
  · rw [if_pos h12]
    rcases le_or_lt v3 v2 with h23 | h23
    · rw [if_neg (not_lt.2 h23), if_neg (by intro h; exact absurd h12 (not_lt.2 h.1)),
        if_pos h23]
    · rw [if_pos h23, if_neg (by intro h; exact absurd h12 (not_lt.2 h.1)),
        if_neg (not_le.2 h23)]

/-- C4: for every principal `P ≥ 0` and `d ∈ [0, 100]`,
`calcular_opcion_1_contado` returns a one-row schedule at month 0 whose cash
flow and present value both equal `P * (1 - d / 100)`, with that value as NPV;
in particular the NPV is `P` at `d = 0`, `0` at `d = 100`, and `930000` at
`P = 1000000, d = 7`. -/
theorem opcion1_lump_sum_correct (P d : ℚ) (hP : 0 ≤ P) (hd0 : 0 ≤ d) (hd1 : d ≤ 100) :
    calcular_opcion_1_contado P d =
      (P * (1 - d / 100),
        [{ mes := 0, flujo := P * (1 - d / 100), valorActual := P * (1 - d / 100) }]) ∧
    (calcular_opcion_1_contado P 0).1 = P ∧
    (calcular_opcion_1_contado P 100).1 = 0 ∧
    (calcular_opcion_1_contado 1000000 7).1 = 930000 := by
  refine ⟨rfl, ?_, ?_, ?_⟩ <;> norm_num [calcular_opcion_1_contado]

/-- Witness for `opcion1_lump_sum_correct` at `P = 2`, `d = 50`. -/
theorem opcion1_lump_sum_correct_witness :
    ((0 : ℚ) ≤ 2 ∧ (0 : ℚ) ≤ 50 ∧ (50 : ℚ) ≤ 100) ∧
    (calcular_opcion_1_contado 2 50 =
      ((2 : ℚ) * (1 - 50 / 100),
        [{ mes := 0, flujo := (2 : ℚ) * (1 - 50 / 100),
           valorActual := (2 : ℚ) * (1 - 50 / 100) }]) ∧
      (calcular_opcion_1_contado 2 0).1 = 2 ∧
      (calcular_opcion_1_contado 2 100).1 = 0 ∧
      (calcular_opcion_1_contado 1000000 7).1 = 930000) :=
  ⟨⟨by norm_num, by norm_num, by norm_num⟩,
    opcion1_lump_sum_correct 2 50 (by norm_num) (by norm_num) (by norm_num)⟩

/-- C5: for all inputs and each of the three options, the returned `van`
equals the exact sum of the `valorActual` column of the returned schedule. -/
theorem van_eq_sum_of_present_values (P d : ℚ) (N : ℕ) (i r tc dv r3 : ℚ) :
    (calcular_opcion_1_contado P d).1 =
      ((calcular_opcion_1_contado P d).2.map Row.valorActual).sum ∧
    (calcular_opcion_2_inflacion P N i r).1 =
      ((calcular_opcion_2_inflacion P N i r).2.map Row.valorActual).sum ∧
    (calcular_opcion_3_dolar P N tc dv r3).1 =
      ((calcular_opcion_3_dolar P N tc dv r3).2.map RowFx.valorActual).sum := by
  refine ⟨by simp [calcular_opcion_1_contado], ?_, ?_⟩
  · show ((List.range N).map _).foldl _ 0 = _
    rw [foldl_add_valorActual, zero_add]
    rfl
  · show ((List.range N).map _).foldl _ 0 = _
    rw [foldl_add_valorActualFx, zero_add]
    rfl

/-- C6 as stated is false of the code: the evaluation functions perform no
validation at all — here a negative principal is accepted by
`calcular_opcion_1_contado`, which returns an ordinary result with NPV `-5`
instead of raising; no `InvalidInputError` (nor any validation or raise
statement) exists in `src/finance.py`. -/
theorem no_input_validation_counterexample :
    (-5 : ℚ) < 0 ∧
      calcular_opcion_1_contado (-5) 0 =
        (-5, [{ mes := 0, flujo := -5, valorActual := -5 }]) := by
  norm_num [calcular_opcion_1_contado]

/-- C6 amended: the engine performs no input validation and defines no
`InvalidInputError`: a negative principal is accepted by the evaluation
functions, which return ordinary results computed by the same formulas, and
`mejor_opcion` of an empty result set produces no recommendation (Python's
`max` raises the built-in `ValueError` there, embedded as `none`), not an
`InvalidInputError`. -/
theorem no_input_validation_amended (P d i r tc dv r3 : ℚ) (hP : P < 0) :
    (calcular_opcion_1_contado P d).1 = P * (1 - d / 100) ∧
    (calcular_opcion_2_inflacion P 12 i r).2.length = 12 ∧
    (calcular_opcion_3_dolar P 12 tc dv r3).2.length = 12 ∧
    mejor_opcion [] = none :=
  ⟨rfl, opcion2_length P 12 i r, opcion3_length P 12 tc dv r3, rfl⟩

/-- Witness for `no_input_validation_amended` at `P = -5`. -/
theorem no_input_validation_amended_witness :
    (-5 : ℚ) < 0 ∧
    ((calcular_opcion_1_contado (-5) 0).1 = (-5 : ℚ) * (1 - 0 / 100) ∧
      (calcular_opcion_2_inflacion (-5) 12 0 0).2.length = 12 ∧
      (calcular_opcion_3_dolar (-5) 12 1 0 0).2.length = 12 ∧
      mejor_opcion [] = none) :=
  ⟨by norm_num, no_input_validation_amended (-5) 0 0 0 1 0 0 (by norm_num)⟩

/-- C9: for `N ≥ 1`, options 2 and 3 return schedules of exactly `N` rows
whose month indices are `1, 2, ..., N` in order, and option 1 returns exactly
one row with month index `0`. -/
theorem schedule_row_indices_contiguous (P d i r tc dv r3 : ℚ) (N : ℕ) (hN : 1 ≤ N) :
    ((calcular_opcion_2_inflacion P N i r).2.length = N ∧
      ∀ k, k < N →
        (((calcular_opcion_2_inflacion P N i r).2)[k]?).map Row.mes = some (k + 1)) ∧
    ((calcular_opcion_3_dolar P N tc dv r3).2.length = N ∧
      ∀ k, k < N →
        (((calcular_opcion_3_dolar P N tc dv r3).2)[k]?).map RowFx.mes = some (k + 1)) ∧
    ((calcular_opcion_1_contado P d).2.length = 1 ∧
      (((calcular_opcion_1_contado P d).2)[0]?).map Row.mes = some 0) := by
  refine ⟨⟨opcion2_length P N i r, fun k hk => ?_⟩,
    ⟨opcion3_length P N tc dv r3, fun k hk => ?_⟩,
    by simp [calcular_opcion_1_contado], by simp [calcular_opcion_1_contado]⟩
  · rw [opcion2_getElem P N i r k hk]
    rfl
  · rw [opcion3_getElem P N tc dv r3 k hk]
    rfl

/-- Witness for `schedule_row_indices_contiguous` at `N = 1` and zero rates. -/
theorem schedule_row_indices_contiguous_witness :
    1 ≤ 1 ∧
    (((calcular_opcion_2_inflacion 0 1 0 0).2.length = 1 ∧
      ∀ k, k < 1 →
        (((calcular_opcion_2_inflacion 0 1 0 0).2)[k]?).map Row.mes = some (k + 1)) ∧
    ((calcular_opcion_3_dolar 0 1 1 0 0).2.length = 1 ∧
      ∀ k, k < 1 →
        (((calcular_opcion_3_dolar 0 1 1 0 0).2)[k]?).map RowFx.mes = some (k + 1)) ∧
    ((calcular_opcion_1_contado 0 0).2.length = 1 ∧
      (((calcular_opcion_1_contado 0 0).2)[0]?).map Row.mes = some 0)) :=
  ⟨le_refl 1, schedule_row_indices_contiguous 0 0 0 0 1 0 0 1 (le_refl 1)⟩

/-- C2: for `P ≥ 0`, `N ≥ 1`, `i ≥ 0` and any `r`, option 2's row for month
`m = k + 1` carries the nominal cash flow `(P / N) * (1 + i / 100) ^ m` —
computed fresh from the constant base installment `P / N`, not by escalating
the previous adjusted installment — and the present value obtained by dividing
that cash flow by `(1 + r) ^ m`; the NPV is the sum of the present values. -/
theorem opcion2_cashflow_schedule_correct (P : ℚ) (N : ℕ) (i r : ℚ)
    (hP : 0 ≤ P) (hN : 1 ≤ N) (hi : 0 ≤ i) :
    (∀ k, k < N →
      ((calcular_opcion_2_inflacion P N i r).2)[k]? =
        some { mes := k + 1,
               flujo := P / (N : ℚ) * (1 + i / 100) ^ (k + 1),
               valorActual :=
                 P / (N : ℚ) * (1 + i / 100) ^ (k + 1) / (1 + r) ^ (k + 1) }) ∧
    (calcular_opcion_2_inflacion P N i r).1 =
      ∑ k in Finset.range N, P / (N : ℚ) * (1 + i / 100) ^ (k + 1) / (1 + r) ^ (k + 1) :=
  ⟨fun k hk => opcion2_getElem P N i r k hk, opcion2_van P N i r⟩

/-- Witness for `opcion2_cashflow_schedule_correct` at `P = 12`, `N = 2`,
`i = 100`, `r = 1`. -/
theorem opcion2_cashflow_schedule_correct_witness :
    ((0 : ℚ) ≤ 12 ∧ 1 ≤ 2 ∧ (0 : ℚ) ≤ 100) ∧
    ((∀ k, k < 2 →
      ((calcular_opcion_2_inflacion 12 2 100 1).2)[k]? =
        some { mes := k + 1,
               flujo := 12 / ((2 : ℕ) : ℚ) * (1 + 100 / 100) ^ (k + 1),
               valorActual :=
                 12 / ((2 : ℕ) : ℚ) * (1 + 100 / 100) ^ (k + 1) / (1 + 1) ^ (k + 1) }) ∧
    (calcular_opcion_2_inflacion 12 2 100 1).1 =
      ∑ k in Finset.range 2,
        12 / ((2 : ℕ) : ℚ) * (1 + 100 / 100) ^ (k + 1) / (1 + 1) ^ (k + 1)) :=
  ⟨⟨by norm_num, by norm_num, by norm_num⟩,
    opcion2_cashflow_schedule_correct 12 2 100 1 (by norm_num) (by norm_num) (by norm_num)⟩

/-- C3: for `P ≥ 0`, `N ≥ 1`, `tc > 0`, `d ≥ 0` and any `r`, option 3 converts
the principal once to foreign units (`P / tc`), splits it into `N` equal
foreign installments, and the row for month `m = k + 1` carries the projected
rate `tc * (1 + d / 100) ^ m`, the local cash flow equal to the foreign
installment times that rate, and the present value obtained by dividing that
cash flow by `(1 + r) ^ m`; the NPV is the sum of the present values. -/
theorem opcion3_cashflow_schedule_correct (P : ℚ) (N : ℕ) (tc d r : ℚ)
    (hP : 0 ≤ P) (hN : 1 ≤ N) (htc : 0 < tc) (hd : 0 ≤ d) :
    (∀ k, k < N →
      ((calcular_opcion_3_dolar P N tc d r).2)[k]? =
        some { mes := k + 1,
               tcProyectado := tc * (1 + d / 100) ^ (k + 1),
               flujo := P / tc / (N : ℚ) * (tc * (1 + d / 100) ^ (k + 1)),
               valorActual :=
                 P / tc / (N : ℚ) * (tc * (1 + d / 100) ^ (k + 1)) / (1 + r) ^ (k + 1) }) ∧
    (calcular_opcion_3_dolar P N tc d r).1 =
      ∑ k in Finset.range N,
        P / tc / (N : ℚ) * (tc * (1 + d / 100) ^ (k + 1)) / (1 + r) ^ (k + 1) :=
  ⟨fun k hk => opcion3_getElem P N tc d r k hk, opcion3_van P N tc d r⟩

/-- Witness for `opcion3_cashflow_schedule_correct` at `P = 10`, `N = 2`,
`tc = 2`, `d = 100`, `r = 1`. -/
theorem opcion3_cashflow_schedule_correct_witness :
    ((0 : ℚ) ≤ 10 ∧ 1 ≤ 2 ∧ (0 : ℚ) < 2 ∧ (0 : ℚ) ≤ 100) ∧
    ((∀ k, k < 2 →
      ((calcular_opcion_3_dolar 10 2 2 100 1).2)[k]? =
        some { mes := k + 1,
               tcProyectado := 2 * (1 + 100 / 100) ^ (k + 1),
               flujo := 10 / 2 / ((2 : ℕ) : ℚ) * (2 * (1 + 100 / 100) ^ (k + 1)),
               valorActual :=
                 10 / 2 / ((2 : ℕ) : ℚ) * (2 * (1 + 100 / 100) ^ (k + 1)) /
                   (1 + 1) ^ (k + 1) }) ∧
    (calcular_opcion_3_dolar 10 2 2 100 1).1 =
      ∑ k in Finset.range 2,
        10 / 2 / ((2 : ℕ) : ℚ) * (2 * (1 + 100 / 100) ^ (k + 1)) / (1 + 1) ^ (k + 1)) :=
  ⟨⟨by norm_num, by norm_num, by norm_num, by norm_num⟩,
    opcion3_cashflow_schedule_correct 10 2 2 100 1 (by norm_num) (by norm_num) (by norm_num)
      (by norm_num)⟩

/-- C7 as stated fails: principal `0` is valid (the spec only requires
`principal ≥ 0`), yet option 2's NPV is then `0` for every inflation rate, so
raising the monthly inflation from `0` to `1` does not increase the NPV. -/
theorem opcion2_monotonicity_fails_at_zero_principal :
    (1 : ℚ) > 0 ∧ (0 : ℚ) ≥ 0 ∧
      ¬ (calcular_opcion_2_inflacion 0 1 1 0).1 > (calcular_opcion_2_inflacion 0 1 0 0).1 := by
  refine ⟨by norm_num, le_refl 0, ?_⟩
  simp [opcion2_van]

/-- C7 amended: for a strictly positive principal, `N ≥ 1`, and a discount
rate with positive discount factor (`1 + r > 0`; the code divides by
`(1 + r) ^ m`), option 2's NPV is strictly increasing in the monthly
inflation percentage. -/
theorem opcion2_van_strict_mono_in_inflation (P : ℚ) (N : ℕ) (i i' r : ℚ)
    (hP : 0 < P) (hN : 1 ≤ N) (hr : 0 < 1 + r) (hi : 0 ≤ i) (hii : i < i') :
    (calcular_opcion_2_inflacion P N i r).1 < (calcular_opcion_2_inflacion P N i' r).1 := by
  rw [opcion2_van, opcion2_van]
  apply Finset.sum_lt_sum_of_nonempty (Finset.nonempty_range_iff.2 (by omega))
  intro k _
  have hbase : (0 : ℚ) < P / (N : ℚ) := by
    apply div_pos hP
    exact_mod_cast Nat.pos_of_ne_zero (by omega)
  have hx : (0 : ℚ) ≤ 1 + i / 100 := by linarith
  have hxy : (1 : ℚ) + i / 100 < 1 + i' / 100 := by linarith
  have hpow : (1 + i / 100 : ℚ) ^ (k + 1) < (1 + i' / 100) ^ (k + 1) :=
    pow_lt_pow_left₀ hxy hx (by omega)
  have hrp : (0 : ℚ) < (1 + r) ^ (k + 1) := pow_pos hr _
  exact div_lt_div_of_pos_right (mul_lt_mul_of_pos_left hpow hbase) hrp

/-- Witness for `opcion2_van_strict_mono_in_inflation` at `P = 1`, `N = 1`,
`i = 0`, `i' = 1`, `r = 0`. -/
theorem opcion2_van_strict_mono_in_inflation_witness :
    ((0 : ℚ) < 1 ∧ 1 ≤ 1 ∧ (0 : ℚ) < 1 + 0 ∧ (0 : ℚ) ≤ 0 ∧ (0 : ℚ) < 1) ∧
    (calcular_opcion_2_inflacion 1 1 0 0).1 < (calcular_opcion_2_inflacion 1 1 1 0).1 :=
  ⟨⟨by norm_num, le_refl 1, by norm_num, le_refl 0, by norm_num⟩,
    opcion2_van_strict_mono_in_inflation 1 1 0 1 0 (by norm_num) (le_refl 1) (by norm_num)
      (le_refl 0) (by norm_num)⟩

/-- C8: with zero inflation, option 2's NPV is exactly the present value of
`N` equal installments of `P / N` discounted at rate `r`, i.e. the standard
annuity closed form (`annuityPV`). The hypothesis `1 + r ≠ 0` marks the single
point where the source would divide by zero (and where the closed form's
`(1 + r)^(-N)` is itself undefined). -/
theorem opcion2_zero_inflation_is_annuity (P : ℚ) (N : ℕ) (r : ℚ)
    (hP : 0 ≤ P) (hN : 1 ≤ N) (hr : 1 + r ≠ 0) :
    (calcular_opcion_2_inflacion P N 0 r).1 = annuityPV P N r := by
  rw [opcion2_van]
  by_cases h0 : r = 0
  · subst h0
    rw [annuityPV, if_pos rfl]
    have hN0 : (N : ℚ) ≠ 0 := Nat.cast_ne_zero.2 (by omega)
    simp [Finset.sum_const, field_simps]
    exact mul_div_cancel_left₀ P hN0
  · rw [annuityPV, if_neg h0]
    have hx1 : ((1 + r)⁻¹ : ℚ) ≠ 1 := by
      intro h
      apply h0
      have h2 : (1 + r) * (1 + r)⁻¹ = (1 + r) * 1 := by rw [h]
      rw [mul_inv_cancel₀ hr, mul_one] at h2
      linarith
    have step1 : ∀ k : ℕ, P / (N : ℚ) * (1 + (0 : ℚ) / 100) ^ (k + 1) / (1 + r) ^ (k + 1) =
        P / (N : ℚ) * (1 + r)⁻¹ * ((1 + r)⁻¹) ^ k := by
      intro k
      rw [div_eq_mul_inv, ← inv_pow, pow_succ']
      ring
    rw [Finset.sum_congr rfl fun k _ => step1 k, ← Finset.mul_sum, geom_sum_eq hx1]
    have hpow : ((1 + r) ^ N : ℚ) ≠ 0 := pow_ne_zero _ hr
    have hx2 : ((1 + r)⁻¹ : ℚ) - 1 ≠ 0 := sub_ne_zero.2 hx1
    field_simp
    ring

/-- Witness for `opcion2_zero_inflation_is_annuity` at `P = 10`, `N = 2`,
`r = 1`. -/
theorem opcion2_zero_inflation_is_annuity_witness :
    ((0 : ℚ) ≤ 10 ∧ 1 ≤ 2 ∧ (1 : ℚ) + 1 ≠ 0) ∧
    (calcular_opcion_2_inflacion 10 2 0 1).1 = annuityPV 10 2 1 :=
  ⟨⟨by norm_num, by norm_num, by norm_num⟩,
    opcion2_zero_inflation_is_annuity 10 2 1 (by norm_num) (by norm_num) (by norm_num)⟩

/-- C10: in exact arithmetic, option 3's cash flows, present values and NPV do
not depend on the initial exchange rate — only the projected-rate column does
— and its NPV coincides with option 2's NPV when the monthly devaluation
percentage is fed in as the monthly inflation percentage. -/
theorem opcion3_independent_of_initial_fx (P : ℚ) (N : ℕ) (d r tc tc' : ℚ)
    (hP : 0 ≤ P) (hN : 1 ≤ N) (hd : 0 ≤ d) (htc : 0 < tc) (htc' : 0 < tc') :
    (∀ k : ℕ, (((calcular_opcion_3_dolar P N tc d r).2)[k]?).map RowFx.flujo =
        (((calcular_opcion_3_dolar P N tc' d r).2)[k]?).map RowFx.flujo) ∧
    (∀ k : ℕ, (((calcular_opcion_3_dolar P N tc d r).2)[k]?).map RowFx.valorActual =
        (((calcular_opcion_3_dolar P N tc' d r).2)[k]?).map RowFx.valorActual) ∧
    (calcular_opcion_3_dolar P N tc d r).1 = (calcular_opcion_3_dolar P N tc' d r).1 ∧
    (calcular_opcion_3_dolar P N tc d r).1 = (calcular_opcion_2_inflacion P N d r).1 := by
  have htc0 : tc ≠ 0 := ne_of_gt htc
  have htc0' : tc' ≠ 0 := ne_of_gt htc'
  have hvan : ∀ u : ℚ, u ≠ 0 → (calcular_opcion_3_dolar P N u d r).1 =
      (calcular_opcion_2_inflacion P N d r).1 := by
    intro u hu
    rw [opcion3_van, opcion2_van]
    exact Finset.sum_congr rfl fun k _ => by rw [fx_cancel P u _ N hu]
  refine ⟨?_, ?_, (hvan tc htc0).trans (hvan tc' htc0').symm, hvan tc htc0⟩
  · intro k
    by_cases hk : k < N
    · rw [opcion3_getElem P N tc d r k hk, opcion3_getElem P N tc' d r k hk]
      simp only [Option.map_some']
      rw [fx_cancel P tc _ N htc0, fx_cancel P tc' _ N htc0']
    · have h1 : ((calcular_opcion_3_dolar P N tc d r).2)[k]? = none :=
        List.getElem?_eq_none (by rw [opcion3_length]; omega)
      have h2 : ((calcular_opcion_3_dolar P N tc' d r).2)[k]? = none :=
        List.getElem?_eq_none (by rw [opcion3_length]; omega)
      rw [h1, h2]
  · intro k
    by_cases hk : k < N
    · rw [opcion3_getElem P N tc d r k hk, opcion3_getElem P N tc' d r k hk]
      simp only [Option.map_some']
      rw [fx_cancel P tc _ N htc0, fx_cancel P tc' _ N htc0']
    · have h1 : ((calcular_opcion_3_dolar P N tc d r).2)[k]? = none :=
        List.getElem?_eq_none (by rw [opcion3_length]; omega)
      have h2 : ((calcular_opcion_3_dolar P N tc' d r).2)[k]? = none :=
        List.getElem?_eq_none (by rw [opcion3_length]; omega)
      rw [h1, h2]

/-- Witness for `opcion3_independent_of_initial_fx` at `P = 10`, `N = 1`,
`d = 0`, `r = 0`, `tc = 1`, `tc' = 2`. -/
theorem opcion3_independent_of_initial_fx_witness :
    ((0 : ℚ) ≤ 10 ∧ 1 ≤ 1 ∧ (0 : ℚ) ≤ 0 ∧ (0 : ℚ) < 1 ∧ (0 : ℚ) < 2) ∧
    ((∀ k : ℕ, (((calcular_opcion_3_dolar 10 1 1 0 0).2)[k]?).map RowFx.flujo =
        (((calcular_opcion_3_dolar 10 1 2 0 0).2)[k]?).map RowFx.flujo) ∧
    (∀ k : ℕ, (((calcular_opcion_3_dolar 10 1 1 0 0).2)[k]?).map RowFx.valorActual =
        (((calcular_opcion_3_dolar 10 1 2 0 0).2)[k]?).map RowFx.valorActual) ∧
    (calcular_opcion_3_dolar 10 1 1 0 0).1 = (calcular_opcion_3_dolar 10 1 2 0 0).1 ∧
    (calcular_opcion_3_dolar 10 1 1 0 0).1 = (calcular_opcion_2_inflacion 10 1 0 0).1) :=
  ⟨⟨by norm_num, le_refl 1, le_refl 0, by norm_num, by norm_num⟩,
    opcion3_independent_of_initial_fx 10 1 0 0 1 2 (by norm_num) (le_refl 1) (le_refl 0)
      (by norm_num) (by norm_num)⟩
